import Mathlib

/-!
Shallow embedding of the layered content-addressed cache of `src/util`
(`cacheLayerBase.cpp`, `fileArchiveCacheLayer.h`).

Modelling conventions:
* C++ pointers taken as arguments become `Option` values; a null pointer is
  `none`, and the pointee of a non-null out-pointer after the call is part of
  the return value of the embedded method.
* Machine state touched through the virtual `*Internal` / `PromoteData` /
  `BatchData` methods is an explicit state type `σ`, threaded through every
  call; the virtual methods themselves are function-valued fields of the
  layer, matching C++ virtual dispatch.
* Side effects on other layers (the downstream `Store`, the batched
  propagation, the promotion) additionally leave an event in an explicit
  trace, so that "the call was attempted" is a statable proposition.
* `PAL_ASSERT` / `PAL_ALERT` are debug logging and assert macros with no
  effect on release control flow; they are dropped.
-/

namespace PalCache

/-- Result codes. `palUtil.h` is not part of the excerpt; the constructors are
the ones `cacheLayerBase.cpp` uses, plus the I/O error kind of the spec's
taxonomy (§7). `Error*` constructors are the negative (error) codes of the
source enum; `Success`, `NotFound` and `Unsupported` are non-error statuses. -/
inductive Result where
  | Success
  | NotFound
  | Unsupported
  | ErrorInvalidPointer
  | ErrorInvalidValue
  | ErrorIoError
  | ErrorUnknown
  deriving DecidableEq, Repr

/-- `IsErrorResult` from `palUtil.h`: true exactly on the error codes
(the source tests `static_cast<int32>(result) < 0`; the `Error*` constructors
are the negative codes). -/
def IsErrorResult : Result → Bool
  | .ErrorInvalidPointer => true
  | .ErrorInvalidValue => true
  | .ErrorIoError => true
  | .ErrorUnknown => true
  | _ => false

/-- Modelled from the spec: the spec's taxonomy name `InvalidArgument`
(absent/null required parameter, §7) is `Result::ErrorInvalidPointer`
in the source. -/
def InvalidArgument : Result := Result.ErrorInvalidPointer

/-- Modelled from the spec: the spec's taxonomy name `InvalidValue`
(well-formed but semantically illegal input, §7) is
`Result::ErrorInvalidValue` in the source. -/
def InvalidValue : Result := Result.ErrorInvalidValue

/-- Modelled from the spec: the spec's taxonomy name `IoError`
(archive read/write failure, §7). -/
def IoError : Result := Result.ErrorIoError

/-- 128-bit content hash (two 64-bit halves); treated as an opaque,
equality-comparable identity by the cache layers. -/
structure Hash128 where
  lo : Nat
  hi : Nat
  deriving DecidableEq, Repr

/-- The bytes behind a `const void*` data pointer. -/
abbrev Data := List Nat

/-- The bytes behind a `void*` output buffer. -/
abbrev Buffer := List Nat

/-- `QueryResult`: which layer satisfied the query (`pLayer`, modelled as the
layer's numeric identity in place of the C++ object address), the hash, and
the payload size needed by a later `Load`. -/
structure QueryResult where
  pLayer : Nat
  hashId : Hash128
  dataSize : Nat
  deriving DecidableEq, Repr

/-- Modelled from the spec: `LinkPolicy` is a set of independent bit flags
(§3); `palCacheLayer.h` with the numeric values is not part of the excerpt,
so each flag is a `Bool` field. `TestAnyFlagSet(m, F)` for a single flag `F`
is the field itself; `TestAllFlagsSet(m, F | G)` is the conjunction. -/
structure LinkPolicy where
  passData : Bool
  passCalls : Bool
  skip : Bool
  loadOnQuery : Bool
  batchStore : Bool
  deriving DecidableEq, Repr

/-- Events recorded by `Query`: its own `QueryInternal` attempt, the forward
to the next layer, and the immediate promotion. -/
inductive QueryEv where
  | internalQuery (h : Hash128)
  | forwarded (h : Hash128)
  | promoted (q : QueryResult)
  deriving DecidableEq, Repr

/-- Events recorded by `Store`: its own `StoreInternal` attempt, the batched
propagation attempt, and the immediate downstream `Store`. -/
inductive StoreEv where
  | internalStore (h : Hash128) (d : Data) (n : Nat)
  | batched (h : Hash128) (d : Data) (n : Nat)
  | forwardedStore (h : Hash128) (d : Data) (n : Nat)
  deriving DecidableEq, Repr

/-- Events recorded by `Load`: its own `LoadInternal` attempt, the forward to
the next layer, and the deferred promotion (whose argument is the value of
the private `tmpQuery` copy at the call). -/
inductive LoadEv where
  | internalLoad (q : QueryResult)
  | forwardedLoad (q : QueryResult)
  | promotedLoad (q : QueryResult)
  deriving DecidableEq, Repr

/-- The `ICacheLayer` interface as the base layer consumes it on its
`m_pNextLayer`: `Query` may write the caller's `QueryResult` slot, `Load`
writes the caller's buffer, all three may touch machine state. -/
structure ICacheLayer (σ : Type) where
  query : Hash128 → QueryResult → σ → (Result × QueryResult) × σ
  store : Hash128 → Data → Nat → σ → Result × σ
  load : QueryResult → Buffer → σ → (Result × Buffer) × σ

/-- `CacheLayerBase` state and virtual methods. `selfId` models the object
address (`this`) used by `Load` for the `pQuery->pLayer == this` test.
`promoteData` and `batchData` are the protected virtual hooks the dispatch
code calls; their behavior is subclass-specific, so they are arbitrary
function fields. -/
structure CacheLayerBase (σ : Type) where
  selfId : Nat
  loadPolicy : LinkPolicy
  storePolicy : LinkPolicy
  nextLayer : Option (ICacheLayer σ)
  queryInternal : Hash128 → QueryResult → σ → (Result × QueryResult) × σ
  storeInternal : Hash128 → Data → Nat → σ → Result × σ
  loadInternal : QueryResult → Buffer → σ → (Result × Buffer) × σ
  promoteData : LinkPolicy → ICacheLayer σ → QueryResult → σ → (Result × QueryResult) × σ
  batchData : LinkPolicy → ICacheLayer σ → Hash128 → Data → Nat → σ → Result × σ

/-- `m_loadPolicy` as set by the `CacheLayerBase` constructor:
`LinkPolicy::PassData | LinkPolicy::PassCalls`. -/
def defaultLoadPolicy : LinkPolicy :=
  { passData := true, passCalls := true, skip := false,
    loadOnQuery := false, batchStore := false }

/-- `m_storePolicy` as set by the `CacheLayerBase` constructor:
`LinkPolicy::PassData`. -/
def defaultStorePolicy : LinkPolicy :=
  { passData := true, passCalls := false, skip := false,
    loadOnQuery := false, batchStore := false }

/-- The `CacheLayerBase` constructor: `m_pNextLayer` is null, the two
policies take their defaults; the subclass supplies the virtual methods.
(The allocator callbacks only feed `PAL_ASSERT`/`PAL_ALERT` checks and
memory management, which the model does not need.) -/
def CacheLayerBase.construct (σ : Type) (selfId : Nat)
    (qi : Hash128 → QueryResult → σ → (Result × QueryResult) × σ)
    (si : Hash128 → Data → Nat → σ → Result × σ)
    (li : QueryResult → Buffer → σ → (Result × Buffer) × σ)
    (pd : LinkPolicy → ICacheLayer σ → QueryResult → σ → (Result × QueryResult) × σ)
    (bd : LinkPolicy → ICacheLayer σ → Hash128 → Data → Nat → σ → Result × σ) :
    CacheLayerBase σ :=
  { selfId := selfId, loadPolicy := defaultLoadPolicy,
    storePolicy := defaultStorePolicy, nextLayer := none,
    queryInternal := qi, storeInternal := si, loadInternal := li,
    promoteData := pd, batchData := bd }

/-- Output of `CacheLayerBase::Query`: the returned `Result`, the pointee of
the caller's `pQuery` slot after the call, the machine state, the trace. -/
structure QueryOutput (σ : Type) where
  result : Result
  queryOut : Option QueryResult
  state : σ
  trace : List QueryEv

/-- Output of `CacheLayerBase::Store`. -/
structure StoreOutput (σ : Type) where
  result : Result
  state : σ
  trace : List StoreEv

/-- Output of `CacheLayerBase::Load`: `queryOut` is the pointee of the
caller's (const) `pQuery` after the call, `bufferOut` the pointee of
`pBuffer`. -/
structure LoadOutput (σ : Type) where
  result : Result
  queryOut : Option QueryResult
  bufferOut : Option Buffer
  state : σ
  trace : List LoadEv

/-- `CacheLayerBase::Query` (`cacheLayerBase.cpp:55`): validate inputs, then
attempt `QueryInternal` unless `Skip`; on `NotFound` forward to the next
layer when present and `PassCalls` is set; on forwarded success with both
`PassData` and `LoadOnQuery`, promote immediately (the promote result is only
alerted on, and `pQuery` may be updated by the promotion). -/
def CacheLayerBase.Query {σ : Type} (self : CacheLayerBase σ)
    (pHashId : Option Hash128) (pQuery : Option QueryResult) (s : σ) :
    QueryOutput σ :=
  match pHashId, pQuery with
  | some hashId, some q0 =>
    let own : (Result × QueryResult) × σ × List QueryEv :=
      if self.loadPolicy.skip then ((Result.NotFound, q0), s, [])
      else
        let r := self.queryInternal hashId q0 s
        (r.1, r.2, [QueryEv.internalQuery hashId])
    match self.nextLayer with
    | some next =>
      if own.1.1 = Result.NotFound ∧ self.loadPolicy.passCalls = true then
        let fwd := next.query hashId own.1.2 own.2.1
        if fwd.1.1 = Result.Success ∧ self.loadPolicy.passData = true ∧
            self.loadPolicy.loadOnQuery = true then
          let promo := self.promoteData self.loadPolicy next fwd.1.2 fwd.2
          { result := fwd.1.1, queryOut := some promo.1.2, state := promo.2,
            trace := own.2.2 ++ [QueryEv.forwarded hashId, QueryEv.promoted fwd.1.2] }
        else
          { result := fwd.1.1, queryOut := some fwd.1.2, state := fwd.2,
            trace := own.2.2 ++ [QueryEv.forwarded hashId] }
      else
        { result := own.1.1, queryOut := some own.1.2, state := own.2.1,
          trace := own.2.2 }
    | none =>
      { result := own.1.1, queryOut := some own.1.2, state := own.2.1,
        trace := own.2.2 }
  | _, _ =>
    { result := Result.ErrorInvalidPointer, queryOut := pQuery, state := s,
      trace := [] }

/-- `CacheLayerBase::Store` (`cacheLayerBase.cpp:94`): validate inputs
(`ErrorInvalidPointer` on a null hash or data pointer, `ErrorInvalidValue` on
zero size), attempt `StoreInternal` unless `Skip` (the result stays at its
`Success` initialization when skipped); on a non-error result with a next
layer and `PassData`, propagate: batched first when `BatchStore` is set
(`batchResult` is initialized to `Unsupported`), falling back to an immediate
`Store` on the next layer when the batch result is `Unsupported`. The
downstream result is only alerted on; the returned `Result` is this layer's
own outcome. -/
def CacheLayerBase.Store {σ : Type} (self : CacheLayerBase σ)
    (pHashId : Option Hash128) (pData : Option Data) (dataSize : Nat)
    (s : σ) : StoreOutput σ :=
  match pHashId, pData with
  | some hashId, some data =>
    if dataSize = 0 then
      { result := Result.ErrorInvalidValue, state := s, trace := [] }
    else
      let own : Result × σ × List StoreEv :=
        if self.storePolicy.skip then (Result.Success, s, [])
        else
          let r := self.storeInternal hashId data dataSize s
          (r.1, r.2, [StoreEv.internalStore hashId data dataSize])
      match self.nextLayer with
      | some next =>
        if IsErrorResult own.1 = false ∧ self.storePolicy.passData = true then
          let batch : Result × σ × List StoreEv :=
            if self.storePolicy.batchStore then
              let b := self.batchData self.storePolicy next hashId data dataSize own.2.1
              (b.1, b.2, [StoreEv.batched hashId data dataSize])
            else (Result.Unsupported, own.2.1, [])
          if batch.1 = Result.Unsupported then
            let child := next.store hashId data dataSize batch.2.1
            { result := own.1, state := child.2,
              trace := own.2.2 ++ batch.2.2 ++ [StoreEv.forwardedStore hashId data dataSize] }
          else
            { result := own.1, state := batch.2.1, trace := own.2.2 ++ batch.2.2 }
        else
          { result := own.1, state := own.2.1, trace := own.2.2 }
      | none => { result := own.1, state := own.2.1, trace := own.2.2 }
  | _, _ =>
    { result := Result.ErrorInvalidPointer, state := s, trace := [] }

/-- `CacheLayerBase::Load` (`cacheLayerBase.cpp:142`): the result is
initialized to `ErrorUnknown`; null arguments give `ErrorInvalidPointer`;
when the `QueryResult` names this layer, delegate to `LoadInternal`;
otherwise forward to the next layer when present and `PassCalls` is set, and
on forwarded success with `PassData` set and `LoadOnQuery` clear, promote
using a private copy `tmpQuery` of the caller's (const) `QueryResult`, whose
updates are discarded. When neither branch applies the initial `ErrorUnknown`
is returned. -/
def CacheLayerBase.Load {σ : Type} (self : CacheLayerBase σ)
    (pQuery : Option QueryResult) (pBuffer : Option Buffer) (s : σ) :
    LoadOutput σ :=
  match pQuery, pBuffer with
  | some q, some buf =>
    if q.pLayer = self.selfId then
      let r := self.loadInternal q buf s
      { result := r.1.1, queryOut := some q, bufferOut := some r.1.2,
        state := r.2, trace := [LoadEv.internalLoad q] }
    else
      match self.nextLayer with
      | some next =>
        if self.loadPolicy.passCalls then
          let fwd := next.load q buf s
          if fwd.1.1 = Result.Success ∧ self.loadPolicy.passData = true ∧
              self.loadPolicy.loadOnQuery = false then
            let promo := self.promoteData self.loadPolicy next q fwd.2
            { result := fwd.1.1, queryOut := some q, bufferOut := some fwd.1.2,
              state := promo.2,
              trace := [LoadEv.forwardedLoad q, LoadEv.promotedLoad q] }
          else
            { result := fwd.1.1, queryOut := some q, bufferOut := some fwd.1.2,
              state := fwd.2, trace := [LoadEv.forwardedLoad q] }
        else
          { result := Result.ErrorUnknown, queryOut := some q,
            bufferOut := some buf, state := s, trace := [] }
      | none =>
        { result := Result.ErrorUnknown, queryOut := some q,
          bufferOut := some buf, state := s, trace := [] }
  | _, _ =>
    { result := Result.ErrorInvalidPointer, queryOut := pQuery,
      bufferOut := pBuffer, state := s, trace := [] }

/-- `CacheLayerBase::Link` (`cacheLayerBase.cpp:184`): installs (replaces)
the non-owning next-layer reference; always succeeds. -/
def CacheLayerBase.Link {σ : Type} (self : CacheLayerBase σ)
    (next : Option (ICacheLayer σ)) : Result × CacheLayerBase σ :=
  (Result.Success, { self with nextLayer := next })

/-- `CacheLayerBase::SetLoadPolicy` (`cacheLayerBase.cpp:194`): rejects with
`ErrorInvalidValue` any flag set containing `BatchStore`, leaving
`m_loadPolicy` unchanged; otherwise installs the flags. -/
def CacheLayerBase.SetLoadPolicy {σ : Type} (self : CacheLayerBase σ)
    (loadPolicy : LinkPolicy) : Result × CacheLayerBase σ :=
  if loadPolicy.batchStore then (Result.ErrorInvalidValue, self)
  else (Result.Success, { self with loadPolicy := loadPolicy })

/-- `CacheLayerBase::SetStorePolicy` (`cacheLayerBase.cpp:215`): rejects with
`ErrorInvalidValue` any flag set containing `LoadOnQuery`, leaving
`m_storePolicy` unchanged; otherwise installs the flags. -/
def CacheLayerBase.SetStorePolicy {σ : Type} (self : CacheLayerBase σ)
    (storePolicy : LinkPolicy) : Result × CacheLayerBase σ :=
  if storePolicy.loadOnQuery then (Result.ErrorInvalidValue, self)
  else (Result.Success, { self with storePolicy := storePolicy })

/-! ### File archive cache layer

`fileArchiveCacheLayer.h` declares the concrete layer; the method bodies
(`QueryInternal`/`StoreInternal`/`LoadInternal`, `fileArchiveCacheLayer.cpp`)
are not part of the excerpt, so they are modelled from the spec (§4.2),
sequentially (the locks guard state that is explicit here, and there is no
concurrent external appender, so the miss-path `RefreshHeaders` re-scan finds
nothing new and is a no-op). -/

/-- Helper type for `ArchiveEntryHeader::entryKey`. The key is derived
deterministically from the `ContentHash` (spec §3), so it is modelled as the
hash itself. -/
abbrev EntryKey := Hash128

/-- Modelled from the spec: `ConvertToEntryKey` derives the fixed-width entry
key deterministically from the content hash (`fileArchiveCacheLayer.cpp` body
missing). -/
def ConvertToEntryKey (pHashId : Hash128) : EntryKey := pHashId

/-- In-memory index value: `{ ordinalId: u64, dataSize: usize }` (spec §3 and
`fileArchiveCacheLayer.h`). -/
structure Entry where
  ordinalId : Nat
  dataSize : Nat
  deriving DecidableEq, Repr

/-- One archive record: header key plus payload bytes (ordinal = position in
the archive list). -/
structure ArchiveRecord where
  key : EntryKey
  payload : List Nat
  deriving DecidableEq, Repr

/-- State of a file archive cache layer: the append-only archive and the
in-memory index (an association list; the most recent insertion for a key
wins, per spec §4.2 "the index keeps the most recently observed mapping"). -/
structure FileArchiveState where
  records : List ArchiveRecord
  index : List (EntryKey × Entry)
  deriving DecidableEq, Repr

/-- Index lookup: first (most recently inserted) match wins. -/
def lookupEntry : List (EntryKey × Entry) → EntryKey → Option Entry
  | [], _ => none
  | (k, e) :: rest, key => if k = key then some e else lookupEntry rest key

/-- Index insertion: the new mapping shadows any older one for the key. -/
def insertEntry (index : List (EntryKey × Entry)) (k : EntryKey) (e : Entry) :
    List (EntryKey × Entry) :=
  (k, e) :: index

/-- Modelled from the spec: `FileArchiveCacheLayer::QueryInternal` derives
the entry key and looks it up in the index; on a hit it returns a
`QueryResult` referencing this layer and the entry's `dataSize`; on a miss
(after the re-scan, a no-op here) it reports `NotFound` without touching the
caller's slot. -/
def faQueryInternal (selfId : Nat) (pHashId : Hash128) (q0 : QueryResult)
    (s : FileArchiveState) : (Result × QueryResult) × FileArchiveState :=
  match lookupEntry s.index (ConvertToEntryKey pHashId) with
  | some e =>
    ((Result.Success,
      { pLayer := selfId, hashId := pHashId, dataSize := e.dataSize }), s)
  | none => ((Result.NotFound, q0), s)

/-- Modelled from the spec: `FileArchiveCacheLayer::StoreInternal` appends a
header + payload record to the archive (assigning the next ordinal) and
inserts `{ordinalId, dataSize}` into the index under the entry key. -/
def faStoreInternal (pHashId : Hash128) (data : Data) (dataSize : Nat)
    (s : FileArchiveState) : Result × FileArchiveState :=
  let key := ConvertToEntryKey pHashId
  let ordinal := s.records.length
  (Result.Success,
   { records := s.records ++ [{ key := key, payload := data.take dataSize }],
     index := insertEntry s.index key { ordinalId := ordinal, dataSize := dataSize } })

/-- Modelled from the spec: `FileArchiveCacheLayer::LoadInternal` re-derives
the entry from the key carried in the `QueryResult` (not trusted blindly),
then reads exactly `dataSize` bytes at the entry's ordinal into the buffer;
`NotFound` if the entry vanished, an I/O error kind on a read failure. -/
def faLoadInternal (q : QueryResult) (buffer : Buffer) (s : FileArchiveState) :
    (Result × Buffer) × FileArchiveState :=
  match lookupEntry s.index (ConvertToEntryKey q.hashId) with
  | some e =>
    match s.records[e.ordinalId]? with
    | some rec =>
      if rec.payload.length = e.dataSize then ((Result.Success, rec.payload), s)
      else ((Result.ErrorIoError, buffer), s)
    | none => ((Result.ErrorIoError, buffer), s)
  | none => ((Result.NotFound, buffer), s)

/-- Modelled from the spec: the base-class default `PromoteData`/`BatchData`
hooks report `Unsupported` (§7: "a requested optional behavior … isn't
implemented"); the file archive layer does not override them. -/
def mkFileArchiveCacheLayer (selfId : Nat) : CacheLayerBase FileArchiveState :=
  CacheLayerBase.construct FileArchiveState selfId
    (faQueryInternal selfId) faStoreInternal faLoadInternal
    (fun _ _ q s => ((Result.Unsupported, q), s))
    (fun _ _ _ _ _ s => (Result.Unsupported, s))

/-! ### Concrete test fixtures

Closed instances over the trivial state `Unit`, used by the witness
theorems. The next layer's `store` fails and the layer's `promoteData`
fails, so the witnesses also exercise the best-effort ("downstream/promotion
failure does not change the primary result") paths concretely. -/

/-- Compact `LinkPolicy` builder (fields in declaration order: `passData`,
`passCalls`, `skip`, `loadOnQuery`, `batchStore`). -/
def mkPolicy (passData passCalls sk loadOnQuery batchStore : Bool) : LinkPolicy :=
  { passData := passData, passCalls := passCalls, skip := sk,
    loadOnQuery := loadOnQuery, batchStore := batchStore }

/-- A concrete hash value. -/
def testHash : Hash128 := { lo := 11, hi := 22 }

/-- A concrete initial pointee for the caller's `QueryResult` slot. -/
def testQ0 : QueryResult := { pLayer := 0, hashId := testHash, dataSize := 0 }

/-- A concrete next layer over `Unit`: its `Query`/`Load` succeed (it claims
layer identity 99), its `Store` fails with `ErrorUnknown`. -/
def testNext : ICacheLayer Unit :=
  { query := fun h _ s => ((Result.Success, { pLayer := 99, hashId := h, dataSize := 3 }), s)
    store := fun _ _ _ s => (Result.ErrorUnknown, s)
    load := fun _ b s => ((Result.Success, b), s) }

/-- A concrete base layer over `Unit` with the given policies and next
layer: its own lookup always misses, its own store succeeds, and its
`promoteData` hook fails with `ErrorUnknown`. -/
def testLayer (lp sp : LinkPolicy) (next : Option (ICacheLayer Unit)) :
    CacheLayerBase Unit :=
  { selfId := 1, loadPolicy := lp, storePolicy := sp, nextLayer := next
    queryInternal := fun _ q s => ((Result.NotFound, q), s)
    storeInternal := fun _ _ _ s => (Result.Success, s)
    loadInternal := fun _ b s => ((Result.Success, b), s)
    promoteData := fun _ _ q s => ((Result.ErrorUnknown, q), s)
    batchData := fun _ _ _ _ _ s => (Result.Unsupported, s) }

/-- Modelled from the spec: the result kinds §6 declares for `Load`
(`Result<(), {InvalidArgument, NotFound, IoError}>`). -/
def specLoadResultKinds : List Result :=
  [InvalidArgument, Result.NotFound, IoError]

/-!  ## Theorems for the claims -/

/-- Claim C5: `Query` with an absent hash pointer or an absent result slot
always fails with `InvalidArgument` (the spec's name for the source's
`Result::ErrorInvalidPointer`), and `Store` with an absent hash or data
pointer always fails with `InvalidArgument`. -/
theorem query_store_null_pointer_rejection {σ : Type}
    (self : CacheLayerBase σ) (s : σ) :
    (∀ pQuery, (self.Query none pQuery s).result = InvalidArgument) ∧
    (∀ pHashId, (self.Query pHashId none s).result = InvalidArgument) ∧
    (∀ pData dataSize, (self.Store none pData dataSize s).result = InvalidArgument) ∧
    (∀ pHashId dataSize, (self.Store pHashId none dataSize s).result = InvalidArgument) := by
  refine ⟨fun pq => rfl, fun ph => ?_, fun pd n => rfl, fun ph n => ?_⟩
  · cases ph <;> rfl
  · cases ph <;> rfl

/-- Claim C8: `Store` with `size == 0` and non-null hash and data pointers
always fails with `InvalidValue` (the source's `Result::ErrorInvalidValue`). -/
theorem store_zero_size_rejection {σ : Type} (self : CacheLayerBase σ)
    (pHashId : Hash128) (data : Data) (s : σ) :
    (self.Store (some pHashId) (some data) 0 s).result = InvalidValue := rfl

/-- Claim C6: `SetLoadPolicy` rejects with `InvalidValue` every flag set
containing `BatchStore`, `SetStorePolicy` rejects with `InvalidValue` every
flag set containing `LoadOnQuery`, both leaving the whole layer (hence the
previously configured policy) unchanged on rejection; every flag set without
the forbidden flag is accepted and replaces the stored policy. -/
theorem policy_setter_validation {σ : Type} (self : CacheLayerBase σ)
    (flags : LinkPolicy) :
    (flags.batchStore = true →
      (self.SetLoadPolicy flags).1 = InvalidValue ∧
      (self.SetLoadPolicy flags).2 = self) ∧
    (flags.batchStore = false →
      (self.SetLoadPolicy flags).1 = Result.Success ∧
      (self.SetLoadPolicy flags).2.loadPolicy = flags) ∧
    (flags.loadOnQuery = true →
      (self.SetStorePolicy flags).1 = InvalidValue ∧
      (self.SetStorePolicy flags).2 = self) ∧
    (flags.loadOnQuery = false →
      (self.SetStorePolicy flags).1 = Result.Success ∧
      (self.SetStorePolicy flags).2.storePolicy = flags) := by
  refine ⟨fun hb => ?_, fun hb => ?_, fun hl => ?_, fun hl => ?_⟩
  · simp [CacheLayerBase.SetLoadPolicy, hb, InvalidValue]
  · simp [CacheLayerBase.SetLoadPolicy, hb]
  · simp [CacheLayerBase.SetStorePolicy, hl, InvalidValue]
  · simp [CacheLayerBase.SetStorePolicy, hl]

/-- Claim C9: after construction and before any policy setter runs, the load
policy is exactly the flag set `{PassData, PassCalls}` and the store policy
is exactly the flag set `{PassData}`. -/
theorem constructor_default_policies (σ : Type) (selfId : Nat)
    (qi : Hash128 → QueryResult → σ → (Result × QueryResult) × σ)
    (si : Hash128 → Data → Nat → σ → Result × σ)
    (li : QueryResult → Buffer → σ → (Result × Buffer) × σ)
    (pd : LinkPolicy → ICacheLayer σ → QueryResult → σ → (Result × QueryResult) × σ)
    (bd : LinkPolicy → ICacheLayer σ → Hash128 → Data → Nat → σ → Result × σ) :
    (CacheLayerBase.construct σ selfId qi si li pd bd).loadPolicy =
      { passData := true, passCalls := true, skip := false,
        loadOnQuery := false, batchStore := false } ∧
    (CacheLayerBase.construct σ selfId qi si li pd bd).storePolicy =
      { passData := true, passCalls := false, skip := false,
        loadOnQuery := false, batchStore := false } :=
  ⟨rfl, rfl⟩

/-- Claim C10: a `Load` whose `QueryResult` names another layer, on a layer
with no next layer or without `PassCalls`, returns `ErrorUnknown` — a result
kind outside the set `{InvalidArgument, NotFound, IoError}` the spec declares
for `Load`. -/
theorem load_foreign_query_error_unknown {σ : Type} (self : CacheLayerBase σ)
    (q : QueryResult) (buffer : Buffer) (s : σ)
    (hother : q.pLayer ≠ self.selfId)
    (hblocked : self.nextLayer = none ∨ self.loadPolicy.passCalls = false) :
    (self.Load (some q) (some buffer) s).result = Result.ErrorUnknown ∧
    Result.ErrorUnknown ∉ specLoadResultKinds := by
  refine ⟨?_, by decide⟩
  rcases hblocked with hb | hb
  · simp [CacheLayerBase.Load, hother, hb]
  · cases hn : self.nextLayer
    · simp [CacheLayerBase.Load, hother, hn]
    · simp [CacheLayerBase.Load, hother, hn, hb]

/-- Witness for C10 at a concrete layer with a next layer but `PassCalls`
clear. -/
theorem load_foreign_query_error_unknown_witness :
    ((testLayer (mkPolicy true false false false false) defaultStorePolicy
        (some testNext)).Load
      (some { pLayer := 99, hashId := testHash, dataSize := 3 })
      (some []) ()).result = Result.ErrorUnknown ∧
    Result.ErrorUnknown ∉ specLoadResultKinds :=
  load_foreign_query_error_unknown _ _ _ _ (by decide) (Or.inr rfl)

/-- Claim C1: for every `Store` call with non-null hash and data pointers and
nonzero size (on a layer that attempts its own store, i.e. `Skip` clear), the
returned value is exactly this layer's own `StoreInternal` outcome — an
equation whose right-hand side does not involve `batchData` or the next
layer's `store`, so no downstream propagation failure can change it; and when
`StoreInternal` does not return an error, a next layer exists and `PassData`
is set in the store policy, propagation is attempted: a batched propagation
first if `BatchStore` is set, with a fallback to an immediate `Store` on the
next layer exactly when the batched attempt reports `Unsupported` (or was
never attempted because `BatchStore` is clear). -/
theorem store_result_reflects_own_outcome {σ : Type} (self : CacheLayerBase σ)
    (next : ICacheLayer σ) (pHashId : Hash128) (data : Data) (dataSize : Nat)
    (s : σ)
    (hn : dataSize ≠ 0)
    (hskip : self.storePolicy.skip = false)
    (hnext : self.nextLayer = some next)
    (hpd : self.storePolicy.passData = true)
    (hok : IsErrorResult (self.storeInternal pHashId data dataSize s).1 = false) :
    (self.Store (some pHashId) (some data) dataSize s).result =
      (self.storeInternal pHashId data dataSize s).1 ∧
    (self.storePolicy.batchStore = false →
      (self.Store (some pHashId) (some data) dataSize s).trace =
        [StoreEv.internalStore pHashId data dataSize,
         StoreEv.forwardedStore pHashId data dataSize]) ∧
    (self.storePolicy.batchStore = true →
      ((self.batchData self.storePolicy next pHashId data dataSize
          (self.storeInternal pHashId data dataSize s).2).1 = Result.Unsupported →
        (self.Store (some pHashId) (some data) dataSize s).trace =
          [StoreEv.internalStore pHashId data dataSize,
           StoreEv.batched pHashId data dataSize,
           StoreEv.forwardedStore pHashId data dataSize]) ∧
      ((self.batchData self.storePolicy next pHashId data dataSize
          (self.storeInternal pHashId data dataSize s).2).1 ≠ Result.Unsupported →
        (self.Store (some pHashId) (some data) dataSize s).trace =
          [StoreEv.internalStore pHashId data dataSize,
           StoreEv.batched pHashId data dataSize])) := by
  refine ⟨?_, fun hbs => ?_, fun hbs => ⟨fun hu => ?_, fun hu => ?_⟩⟩
  · simp only [CacheLayerBase.Store]
    rw [if_neg hn]
    simp only [hskip, Bool.false_eq_true, if_false, hnext]
    split
    · split
      · split <;> rfl
      · rfl
    · rfl
  · simp [CacheLayerBase.Store, hn, hskip, hnext, hpd, hok, hbs]
  · simp [CacheLayerBase.Store, hn, hskip, hnext, hpd, hok, hbs, hu]
  · simp [CacheLayerBase.Store, hn, hskip, hnext, hpd, hok, hbs, hu]

/-- Witness for C1 over `Unit` state: the layer's own store succeeds, the
downstream `Store` fails with `ErrorUnknown` (see `testNext`), and `Store`
still returns the own outcome `Success` after attempting the forward. -/
theorem store_result_reflects_own_outcome_witness :
    ((testLayer defaultLoadPolicy defaultStorePolicy (some testNext)).Store
        (some testHash) (some [7, 8]) 2 ()).result =
      ((testLayer defaultLoadPolicy defaultStorePolicy
          (some testNext)).storeInternal testHash [7, 8] 2 ()).1 ∧
    ((testLayer defaultLoadPolicy defaultStorePolicy (some testNext)).Store
        (some testHash) (some [7, 8]) 2 ()).result = Result.Success ∧
    ((testLayer defaultLoadPolicy defaultStorePolicy (some testNext)).Store
        (some testHash) (some [7, 8]) 2 ()).trace =
      [StoreEv.internalStore testHash [7, 8] 2,
       StoreEv.forwardedStore testHash [7, 8] 2] := by
  have h := store_result_reflects_own_outcome
    (testLayer defaultLoadPolicy defaultStorePolicy (some testNext)) testNext
    testHash [7, 8] 2 () (by decide) rfl rfl rfl rfl
  exact ⟨h.1, h.1.trans (by decide), h.2.1 rfl⟩

/-- Claim C3: a `Query` with non-null arguments on a layer whose own lookup
(`QueryInternal`, attempted since `Skip` is clear) reports `NotFound`, with
`PassCalls` set and a next layer present, forwards the query to the next
layer; when the forwarded query succeeds and both `PassData` and
`LoadOnQuery` are set, the data is promoted into this layer immediately, and
the overall result is the child's `Success` — an equation that does not
involve `promoteData`'s result, so a promotion failure cannot change it. -/
theorem query_forwarding_and_eager_promotion {σ : Type}
    (self : CacheLayerBase σ) (next : ICacheLayer σ) (pHashId : Hash128)
    (q0 : QueryResult) (s : σ)
    (hskip : self.loadPolicy.skip = false)
    (hmiss : (self.queryInternal pHashId q0 s).1.1 = Result.NotFound)
    (hnext : self.nextLayer = some next)
    (hpc : self.loadPolicy.passCalls = true) :
    QueryEv.forwarded pHashId ∈ (self.Query (some pHashId) (some q0) s).trace ∧
    ((next.query pHashId (self.queryInternal pHashId q0 s).1.2
        (self.queryInternal pHashId q0 s).2).1.1 = Result.Success →
      self.loadPolicy.passData = true → self.loadPolicy.loadOnQuery = true →
        (self.Query (some pHashId) (some q0) s).result = Result.Success ∧
        QueryEv.promoted (next.query pHashId (self.queryInternal pHashId q0 s).1.2
            (self.queryInternal pHashId q0 s).2).1.2 ∈
          (self.Query (some pHashId) (some q0) s).trace) := by
  refine ⟨?_, fun hsucc hpd hloq => ⟨?_, ?_⟩⟩
  · simp only [CacheLayerBase.Query, hskip, Bool.false_eq_true, if_false,
      hnext, hmiss, hpc, and_self, if_true]
    split <;> simp
  · simp [CacheLayerBase.Query, hskip, hmiss, hnext, hpc, hsucc, hpd, hloq]
  · simp [CacheLayerBase.Query, hskip, hmiss, hnext, hpc, hsucc, hpd, hloq]

/-- Witness for C3 over `Unit` state: the layer's own lookup misses, the
child query succeeds, the promotion hook fails with `ErrorUnknown` (see
`testLayer`), and `Query` still returns `Success` with both the forward and
the promotion in the trace. -/
theorem query_forwarding_and_eager_promotion_witness :
    QueryEv.forwarded testHash ∈
      ((testLayer (mkPolicy true true false true false) defaultStorePolicy
          (some testNext)).Query (some testHash) (some testQ0) ()).trace ∧
    ((testLayer (mkPolicy true true false true false) defaultStorePolicy
        (some testNext)).Query (some testHash) (some testQ0) ()).result =
      Result.Success ∧
    QueryEv.promoted { pLayer := 99, hashId := testHash, dataSize := 3 } ∈
      ((testLayer (mkPolicy true true false true false) defaultStorePolicy
          (some testNext)).Query (some testHash) (some testQ0) ()).trace := by
  have h := query_forwarding_and_eager_promotion
    (testLayer (mkPolicy true true false true false) defaultStorePolicy
      (some testNext)) testNext testHash testQ0 () rfl rfl rfl rfl
  exact ⟨h.1, (h.2 rfl rfl rfl).1, (h.2 rfl rfl rfl).2⟩

/-- Claim C4: a `Load` with non-null arguments whose `QueryResult` names a
layer other than this one, with `PassCalls` set and a next layer present, is
forwarded to the next layer; on forwarded success the promotion into this
layer is attempted exactly when `PassData` is set and `LoadOnQuery` is clear;
and the caller's `QueryResult` slot is left unchanged (the promotion works on
the private copy `tmpQuery`, whose initial value — the `promotedLoad` event
argument — equals the caller's value). -/
theorem load_forwarding_and_deferred_promotion {σ : Type}
    (self : CacheLayerBase σ) (next : ICacheLayer σ) (q : QueryResult)
    (buffer : Buffer) (s : σ)
    (hother : q.pLayer ≠ self.selfId)
    (hnext : self.nextLayer = some next)
    (hpc : self.loadPolicy.passCalls = true) :
    LoadEv.forwardedLoad q ∈ (self.Load (some q) (some buffer) s).trace ∧
    (self.Load (some q) (some buffer) s).queryOut = some q ∧
    ((next.load q buffer s).1.1 = Result.Success →
      (LoadEv.promotedLoad q ∈ (self.Load (some q) (some buffer) s).trace ↔
        (self.loadPolicy.passData = true ∧ self.loadPolicy.loadOnQuery = false))) := by
  cases hpd : self.loadPolicy.passData <;>
    cases hloq : self.loadPolicy.loadOnQuery <;>
      by_cases hs : (next.load q buffer s).1.1 = Result.Success <;>
        simp [CacheLayerBase.Load, hother, hnext, hpc, hpd, hloq, hs]

/-- Witness for C4 over `Unit` state, with `PassData` set and `LoadOnQuery`
clear: the forwarded load succeeds, the promotion is attempted on the copy,
and the caller's slot is returned unchanged. -/
theorem load_forwarding_and_deferred_promotion_witness :
    LoadEv.forwardedLoad { pLayer := 99, hashId := testHash, dataSize := 3 } ∈
      ((testLayer defaultLoadPolicy defaultStorePolicy (some testNext)).Load
        (some { pLayer := 99, hashId := testHash, dataSize := 3 })
        (some [1, 2, 3]) ()).trace ∧
    ((testLayer defaultLoadPolicy defaultStorePolicy (some testNext)).Load
        (some { pLayer := 99, hashId := testHash, dataSize := 3 })
        (some [1, 2, 3]) ()).queryOut =
      some { pLayer := 99, hashId := testHash, dataSize := 3 } ∧
    LoadEv.promotedLoad { pLayer := 99, hashId := testHash, dataSize := 3 } ∈
      ((testLayer defaultLoadPolicy defaultStorePolicy (some testNext)).Load
        (some { pLayer := 99, hashId := testHash, dataSize := 3 })
        (some [1, 2, 3]) ()).trace := by
  have h := load_forwarding_and_deferred_promotion
    (testLayer defaultLoadPolicy defaultStorePolicy (some testNext)) testNext
    { pLayer := 99, hashId := testHash, dataSize := 3 } [1, 2, 3] ()
    (by decide) rfl rfl
  exact ⟨h.1, h.2.1, (h.2.2 rfl).mpr (by decide)⟩

/-- Counterexample to claim C7 as stated: on a layer with `Skip` set but
`PassCalls` clear and a next layer present (whose query would succeed),
`Query` with non-null arguments is NOT delegated to the next layer — the
trace records no forward and the result is this layer's `NotFound`, not the
child's `Success`. -/
theorem query_skip_not_always_delegated_counterexample :
    QueryEv.forwarded testHash ∉
      ((testLayer (mkPolicy true false true false false) defaultStorePolicy
          (some testNext)).Query (some testHash) (some testQ0) ()).trace ∧
    ((testLayer (mkPolicy true false true false false) defaultStorePolicy
        (some testNext)).Query (some testHash) (some testQ0) ()).result =
      Result.NotFound := by
  decide

/-- Claim C7 (amended): a `Query` with non-null arguments on a layer whose
load policy has `Skip` set never attempts `QueryInternal` (the layer's own
storage is bypassed entirely), and the call is delegated to the next layer
exactly when a next layer exists and `PassCalls` is set; otherwise `Query`
returns `NotFound` without delegating. -/
theorem query_skip_bypasses_own_storage {σ : Type} (self : CacheLayerBase σ)
    (pHashId : Hash128) (q0 : QueryResult) (s : σ)
    (hskip : self.loadPolicy.skip = true) :
    (∀ h', QueryEv.internalQuery h' ∉
      (self.Query (some pHashId) (some q0) s).trace) ∧
    (∀ next, self.nextLayer = some next → self.loadPolicy.passCalls = true →
      QueryEv.forwarded pHashId ∈ (self.Query (some pHashId) (some q0) s).trace ∧
      (self.Query (some pHashId) (some q0) s).result =
        (next.query pHashId q0 s).1.1) ∧
    (self.loadPolicy.passCalls = false →
      (self.Query (some pHashId) (some q0) s).result = Result.NotFound ∧
      (self.Query (some pHashId) (some q0) s).trace = []) ∧
    (self.nextLayer = none →
      (self.Query (some pHashId) (some q0) s).result = Result.NotFound ∧
      (self.Query (some pHashId) (some q0) s).trace = []) := by
  refine ⟨fun h' => ?_, fun next hnext hpc => ?_, fun hpc => ?_, fun hnone => ?_⟩
  · cases hn : self.nextLayer
    · simp [CacheLayerBase.Query, hskip, hn]
    · simp only [CacheLayerBase.Query, hskip, eq_self_iff_true, if_true, hn]
      split
      · split <;> simp
      · simp
  · simp only [CacheLayerBase.Query, hskip, eq_self_iff_true, if_true, hnext,
      hpc, and_true, and_self]
    split <;> simp
  · simp only [CacheLayerBase.Query, hskip, eq_self_iff_true, if_true, hpc]
    cases hn : self.nextLayer <;> simp
  · simp [CacheLayerBase.Query, hskip, hnone]

/-- Witness for the amended C7 over `Unit` state, with `Skip` and `PassCalls`
both set: no own lookup is attempted and the call is forwarded. -/
theorem query_skip_bypasses_own_storage_witness :
    (∀ h', QueryEv.internalQuery h' ∉
      ((testLayer (mkPolicy true true true false false) defaultStorePolicy
          (some testNext)).Query (some testHash) (some testQ0) ()).trace) ∧
    QueryEv.forwarded testHash ∈
      ((testLayer (mkPolicy true true true false false) defaultStorePolicy
          (some testNext)).Query (some testHash) (some testQ0) ()).trace ∧
    ((testLayer (mkPolicy true true true false false) defaultStorePolicy
        (some testNext)).Query (some testHash) (some testQ0) ()).result =
      Result.Success := by
  have h := query_skip_bypasses_own_storage
    (testLayer (mkPolicy true true true false false) defaultStorePolicy
      (some testNext)) testHash testQ0 () rfl
  exact ⟨h.1, (h.2.1 testNext rfl rfl).1, ((h.2.1 testNext rfl rfl).2).trans rfl⟩

/-- Index lookup immediately after an insertion of the same key finds the
inserted entry (the most recent mapping wins). -/
theorem lookupEntry_insert (index : List (EntryKey × Entry)) (k : EntryKey)
    (e : Entry) : lookupEntry (insertEntry index k e) k = some e := by
  simp [insertEntry, lookupEntry]

/-- Claim C2: on a file archive cache layer, for every valid `(hash, data)`
pair with nonzero size (the data pointer really holds `size` bytes), `Store`,
then `Query`, then `Load` with the `QueryResult` that `Query` produced, all
succeed, and `Load` fills the output buffer with bytes identical to `data`
and of length equal to `size` — from any starting archive state. -/
theorem store_query_load_roundtrip (selfId : Nat) (pHashId : Hash128)
    (data : Data) (dataSize : Nat) (s : FileArchiveState) (q0 : QueryResult)
    (buffer : Buffer)
    (hn : dataSize ≠ 0) (hlen : data.length = dataSize) :
    (let layer := mkFileArchiveCacheLayer selfId
     let so := layer.Store (some pHashId) (some data) dataSize s
     let qo := layer.Query (some pHashId) (some q0) so.state
     let lo := layer.Load qo.queryOut (some buffer) qo.state
     so.result = Result.Success ∧ qo.result = Result.Success ∧
       lo.result = Result.Success ∧ lo.bufferOut = some data ∧
       (lo.bufferOut.getD []).length = dataSize) := by
  subst hlen
  simp only [mkFileArchiveCacheLayer, CacheLayerBase.construct]
  simp only [CacheLayerBase.Store, if_neg hn, defaultStorePolicy,
    Bool.false_eq_true, if_false, faStoreInternal]
  simp only [CacheLayerBase.Query, defaultLoadPolicy, Bool.false_eq_true,
    if_false, faQueryInternal, ConvertToEntryKey, lookupEntry_insert]
  simp only [CacheLayerBase.Load, faLoadInternal, ConvertToEntryKey,
    lookupEntry_insert, List.getElem?_concat_length, List.length_take,
    Nat.min_self, List.take_length]
  simp

/-- Witness for C2 at a concrete hash, payload `[5, 6, 7]` of size 3, and the
empty starting archive. -/
theorem store_query_load_roundtrip_witness :
    (let layer := mkFileArchiveCacheLayer 1
     let so := layer.Store (some testHash) (some [5, 6, 7]) 3
       { records := [], index := [] }
     let qo := layer.Query (some testHash) (some testQ0) so.state
     let lo := layer.Load qo.queryOut (some []) qo.state
     so.result = Result.Success ∧ qo.result = Result.Success ∧
       lo.result = Result.Success ∧ lo.bufferOut = some [5, 6, 7] ∧
       (lo.bufferOut.getD []).length = 3) :=
  store_query_load_roundtrip 1 testHash [5, 6, 7] 3
    { records := [], index := [] } testQ0 [] (by decide) rfl

end PalCache
